import Mathlib

/-!
# Verification of the Morpheas widget toolkit (`morpheas.py`)

Shallow embedding of the parts of `morpheas.py` that the checked properties
are about.  Numeric values of the Python source (float positions, widths,
scales) are embedded as rationals `ℚ`; a raised Python exception is embedded
as an `Option`-style `none` result or as an explicit "raised message"
component.  Each definition mirrors one attribute slice / method of the
source; source line numbers are given in the doc comments.
-/

namespace Morpheas

/-! ## Name lookup (`Morph.get_child_morph_named`, lines 656-665)

A morph tree node, restricted to the fields the lookup reads:
`self._name` and `self.children`. -/

inductive NTree : Type where
| mk : String → List NTree → NTree

def NTree.name : NTree → String
| .mk n _ => n

def NTree.children : NTree → List NTree
| .mk _ cs => cs

mutual

/-- Source method `Morph.get_child_morph_named(name)` (lines 656-665).
The body loops over `self.children`; on a name match it returns the child,
otherwise it calls `child.get_child_morph_named(name)` **and discards the
result** (the recursive call's value is bound here to `_deep` and dropped,
exactly as the source drops it), then falls through to `return None`. -/
def get_child_morph_named (name : String) : NTree → Option NTree
| .mk _ cs => get_child_loop name cs

/-- The `for child in self.children` loop of `get_child_morph_named`. -/
def get_child_loop (name : String) : List NTree → Option NTree
| [] => none
| c :: rest =>
  if c.name = name then some c
  else
    let _deep := get_child_morph_named name c
    get_child_loop name rest

end

mutual

/-- Exhaustive depth-first check: does the strict subtree (descendants only,
the node's own name excluded at the top call) contain a node with the given
name?  This is what the claimed lookup contract would find. -/
def containsNamed (name : String) : NTree → Bool
| .mk _ cs => containsNamedL name cs

def containsNamedL (name : String) : List NTree → Bool
| [] => false
| c :: rest => (c.name = name) || containsNamed name c || containsNamedL name rest

end

/-- Concrete tree for the lookup claim: the name `"deep"` sits two levels
below the root (`root → mid → deep`). -/
def lookupTree : NTree := .mk "root" [.mk "mid" [.mk "deep" []]]

/-! ## Event dispatch and consumption (`Morph.on_event`, lines 706-724,
and `Morph.on_mouse_click`, lines 726-740)

The fields of a morph read during one button-event dispatch.  `mouse_over`
records the value of the `mouse_over_morph` hit-test for the event being
dispatched (the pointer does not move during one dispatch). -/

structure EvData where
  id : ℕ
  handles_events : Bool
  is_hidden : Bool
  handles_mouse_down : Bool
  mouse_over : Bool

inductive EvTree : Type where
| mk : EvData → List EvTree → EvTree

def EvTree.data : EvTree → EvData
| .mk d _ => d

/-- The slice of `event.type` that `Morph.on_event` branches on
(lines 720-724): `{'LEFTMOUSE','RIGHTMOUSE'}` versus `{'MOUSEMOVE'}`
versus anything else. -/
inductive EventKind : Type where
| leftmouse
| rightmouse
| mousemove
| other
deriving DecidableEq

def EventKind.isButton : EventKind → Bool
| .leftmouse => true
| .rightmouse => true
| .mousemove => false
| .other => false

/-- Source method `Morph.on_mouse_click(event)` (lines 726-740) for one
widget: if the pointer is over the morph and it handles mouse-down, set
`world.consumed_event = True` and run the click handler matching the
event's button/value combination (which of the four sub-handlers runs is
irrelevant to the consumption property; the returned list records the
widgets whose click handlers ran).  Otherwise nothing happens. -/
def on_mouse_click_step (d : EvData) (consumed : Bool) : Bool × List EvData :=
  if d.mouse_over then
    if d.handles_mouse_down then (true, [d]) else (consumed, [])
  else (consumed, [])

mutual

/-- Source method `Morph.on_event(event, context)` (lines 706-724): first
recurse into all children (in order), then — only if this morph handles
events, is not hidden, and the root's `consumed_event` flag is not already
set — route a button event to `on_mouse_click`.  A `MOUSEMOVE` event is
routed to `on_mouse_over`, which never touches the consumed flag and runs
no click handler (its drag/hover effects are modelled separately below);
other event types fall through.  The state threaded left-to-right is the
root's shared `consumed_event` flag; the second component collects the
widgets whose click handlers ran. -/
def morph_on_event (e : EventKind) : EvTree → Bool → Bool × List EvData
| .mk d cs, consumed =>
  let r := morph_on_event_list e cs consumed
  if d.handles_events && !d.is_hidden && !r.1 then
    if e.isButton then
      let s := on_mouse_click_step d r.1
      (s.1, r.2 ++ s.2)
    else r
  else r

/-- The `for morph in self.children` loop of `Morph.on_event`
(lines 715-717), threading the root's consumed flag through the
children in insertion order. -/
def morph_on_event_list (e : EventKind) : List EvTree → Bool → Bool × List EvData
| [], consumed => (consumed, [])
| t :: ts, consumed =>
  let r1 := morph_on_event e t consumed
  let r2 := morph_on_event_list e ts r1.1
  (r2.1, r1.2 ++ r2.2)

end

/-- One dispatch from the root: `World.on_event` (lines 996-1029) resets
`consumed_event` to `False` and then runs `morph.on_event` over its
children in order. -/
def world_dispatch (e : EventKind) (cs : List EvTree) : Bool × List EvData :=
  morph_on_event_list e cs false

mutual

/-- Post-order (children first, in insertion order, then the node itself):
the order in which widgets get to act on an event. -/
def postorder : EvTree → List EvData
| .mk d cs => postorderL cs ++ [d]

def postorderL : List EvTree → List EvData
| [] => []
| t :: ts => postorder t ++ postorderL ts

end

/-- A widget consumes a button event (and runs a click handler) exactly when
it handles events, is not hidden, the pointer is over it, and it handles
mouse-down — provided the shared flag was still clear when its turn came. -/
def clickConsumer (d : EvData) : Bool :=
  d.handles_events && !d.is_hidden && d.mouse_over && d.handles_mouse_down

/-- Concrete two-level tree for the dispatch claim: widget 1 contains
widget 2; both are eligible consumers, and the pointer is over both. -/
def dispatchDemo : List EvTree :=
  [.mk ⟨1, true, false, true, true⟩ [.mk ⟨2, true, false, true, true⟩ []]]

/-! ## Rectangle hit-test (`Morph.mouse_over_morph`, lines 340-369)

State slice of a rectangle-shaped morph (`circle = False`; the circle
branch of lines 348-360 is outside claim C3): the absolute position
returned by `get_absolute_position()`, the unscaled size
(`real_width`/`real_height`) and the scaled caches (`_width`/`_height`). -/

structure RectMorph where
  absX : ℚ
  absY : ℚ
  real_width : ℚ
  real_height : ℚ
  widthS : ℚ
  heightS : ℚ
deriving DecidableEq

/-- The `width` getter (lines 221-229): raises `ValueError` when
`real_width < 0` (modelled by `none`), else returns `real_width`. -/
def width_get (m : RectMorph) : Option ℚ :=
  if m.real_width < 0 then none else some m.real_width

/-- The `height` getter (lines 252-260): tests the scaled cache `_height`
for negativity but returns `real_height`. -/
def height_get (m : RectMorph) : Option ℚ :=
  if m.heightS < 0 then none else some m.real_height

/-- Source property `Morph.mouse_over_morph`, rectangle branch
(lines 362-369): the box runs from the absolute position to the absolute
position plus the *unscaled* `self.width`/`self.height` getters, and all
four comparisons are strict.  `ex`/`ey` is `world.mouse_position_absolute`. -/
def mouse_over_morph (m : RectMorph) (ex ey : ℚ) : Option Bool := do
  let apx1 := m.absX
  let apy1 := m.absY
  let w ← width_get m
  let apx2 := m.absX + w
  let h ← height_get m
  let apy2 := m.absY + h
  pure (decide (ex > apx1) && decide (ex < apx2) &&
        decide (ey > apy1) && decide (ey < apy2))

/-- The box test in the claim's words (written from the spec, for comparison
with `mouse_over_morph`): strictly inside the box from the absolute position
to the absolute position plus the **scaled** width and height. -/
def pointer_over_scaled_box (m : RectMorph) (ex ey : ℚ) : Bool :=
  decide (ex > m.absX) && decide (ex < m.absX + m.widthS) &&
  decide (ey > m.absY) && decide (ey < m.absY + m.heightS)

/-- A rectangle morph with effective scale 2: unscaled size 50×30, scaled
caches 100×60. -/
def scaledRect : RectMorph :=
  { absX := 0, absY := 0, real_width := 50, real_height := 30,
    widthS := 100, heightS := 60 }

/-- The spec's example rectangle: absolute position (10,10), size (50,30)
at effective scale 1 (so scaled caches equal the unscaled size). -/
def unitRect : RectMorph :=
  { absX := 10, absY := 10, real_width := 50, real_height := 30,
    widthS := 50, heightS := 30 }

/-! ## The hidden-flag cascade (`Morph.is_hidden` setter, lines 578-583) -/

inductive HTree : Type where
| mk : Bool → List HTree → HTree

def HTree.hidden : HTree → Bool
| .mk h _ => h

def HTree.children : HTree → List HTree
| .mk _ cs => cs

mutual

/-- Source setter `Morph.is_hidden = value` (lines 578-583): iterate over
`self.children`, recursively assigning `is_hidden = value` **only on the
children whose flag differs from `value`**, then set `self._is_hidden`. -/
def set_is_hidden (value : Bool) : HTree → HTree
| .mk _ cs => .mk value (set_is_hidden_children value cs)

/-- The `for morph in self.children` loop of the `is_hidden` setter, with
its `if morph.is_hidden != value` guard. -/
def set_is_hidden_children (value : Bool) : List HTree → List HTree
| [] => []
| c :: rest =>
  (if c.hidden ≠ value then set_is_hidden value c else c) ::
    set_is_hidden_children value rest

end

mutual

/-- Every node of the tree (the root and all its descendants) carries the
hidden flag `b`. -/
def subtreeAll (b : Bool) : HTree → Bool
| .mk h cs => (h == b) && subtreeAllL b cs

def subtreeAllL (b : Bool) : List HTree → Bool
| [] => true
| c :: rest => subtreeAll b c && subtreeAllL b rest

end

/-- A tree is internally consistent when its whole subtree carries the
root's own flag (the spec's invariant (c)). -/
def consistent (t : HTree) : Bool := subtreeAll t.hidden t

/-- All trees in the list are internally consistent. -/
def consistentChildren : List HTree → Bool
| [] => true
| c :: rest => consistent c && consistentChildren rest

/-- Counterexample tree for the cascade claim: the root is visible, its
child is already hidden, but the grandchild is visible — the child's
subtree is not internally consistent. -/
def hiddenCex : HTree := .mk false [.mk true [.mk false []]]

/-- Witness tree for the amended cascade claim: visible root with one
hidden child whose subtree is uniformly hidden. -/
def hiddenDemo : HTree := .mk false [.mk true [.mk true []]]

/-! ## Drag move with sibling collision (`Morph.on_mouse_over`,
lines 742-782)

State slices: `DChild` is what the collision loop reads from an entry of
`world.children` (its `name`, `is_hidden`, `position_scaled` getter value
and scaled size caches); `DMorph` is the dragged morph itself
(`real_position`, the `_position` cache, `get_absolute_scale()`, scaled
size caches, the `drag_drop` flag and the `drag_position` anchor). -/

structure DChild where
  name : String
  is_hidden : Bool
  posScaledX : ℚ
  posScaledY : ℚ
  widthS : ℚ
  heightS : ℚ
deriving DecidableEq

structure DMorph where
  name : String
  posX : ℚ
  posY : ℚ
  posCacheX : ℚ
  posCacheY : ℚ
  absScale : ℚ
  widthS : ℚ
  heightS : ℚ
  drag_drop : Bool
  dragX : ℚ
  dragY : ℚ
deriving DecidableEq

/-- Modelled from the spec: `morpheas_tools.collisionDetect` lives in
`morpheas_tools.py`, a file of this repository that is not under src/.
The spec describes it as the axis-aligned rectangle collision helper
(§2 "axis-aligned rectangle collision. Pure functions"; §4.1 "drag
collision use axis-aligned rectangle containment/overlap tests only"):
the open-box overlap test of the boxes (x1,y1,w1,h1) and (x2,y2,w2,h2). -/
def collisionDetect (x1 y1 x2 y2 w1 h1 w2 h2 : ℚ) : Bool :=
  decide (x1 < x2 + w2) && decide (x2 < x1 + w1) &&
  decide (y1 < y2 + h2) && decide (y2 < y1 + h1)

/-- The `width_scaled` / `height_scaled` getters (lines 231-239, 262-270):
raise `ValueError` on a negative scaled cache (modelled by `none`), else
return it. -/
def scaled_get (v : ℚ) : Option ℚ :=
  if v < 0 then none else some v

/-- The `for bigMorph in self.world.children` collision loop of
`on_mouse_over` (lines 765-771): `cancel_drag` starts `False` and is set on
any hit, without breaking.  The name inequality and hiddenness tests come
before the scaled-size getters of either morph are touched (Python's `and`
short-circuits), so a getter can only raise for a differently-named,
non-hidden entry. -/
def cancel_drag_loop (self : DMorph) (positionX positionY : ℚ) :
    List DChild → Option Bool
| [] => some false
| big :: rest =>
  if big.name ≠ self.name ∧ big.is_hidden = false then do
    let sw ← scaled_get self.widthS
    let sh ← scaled_get self.heightS
    let bw ← scaled_get big.widthS
    let bh ← scaled_get big.heightS
    let hit := collisionDetect positionX positionY big.posScaledX big.posScaledY
      sw sh bw bh
    let restCancel ← cancel_drag_loop self positionX positionY rest
    pure (hit || restCancel)
  else cancel_drag_loop self positionX positionY rest

/-- The drag part of source method `Morph.on_mouse_over(event)`
(lines 742-778), run on a `MOUSEMOVE` while `drag_drop` is set:
offset = `world.mouse_position` minus `drag_position`; the candidate is the
offset position clamped to `[0, viewport − scaled size]` (`vw`/`vh` are
the host-viewport query results, with their 100×100 fallback — an external
input here); if the collision loop cancels, the morph is left unchanged
(drag stays active), otherwise the position setter (lines 298-305) stores
the candidate (and its scaled `_position` cache) and the drag anchor is set
to the current mouse position.  The trailing mouse-in/mouse-out dispatch
(lines 779-782) is modelled separately (`morph_on_mouse_out` below). -/
def on_mouse_over_drag (self : DMorph) (worldChildren : List DChild)
    (mouseX mouseY vw vh : ℚ) : Option DMorph :=
  if self.drag_drop then
    let offsetX := mouseX - self.dragX
    let offsetY := mouseY - self.dragY
    let positionX := max (min (vw - self.widthS) (self.posX + offsetX)) 0
    let positionY := max (min (vh - self.heightS) (self.posY + offsetY)) 0
    match cancel_drag_loop self positionX positionY worldChildren with
    | none => none
    | some cancel =>
      if cancel = false then
        some { self with
          posX := positionX, posY := positionY,
          posCacheX := positionX * self.absScale,
          posCacheY := positionY * self.absScale,
          dragX := mouseX, dragY := mouseY }
      else some self
  else some self

/-- The candidate x coordinate computed in lines 749-761: the pointer's
x offset since the drag anchor, applied to the morph's position and clamped
to `[0, viewport width − scaled width]`. -/
def drag_candidate_x (self : DMorph) (mouseX vw : ℚ) : ℚ :=
  max (min (vw - self.widthS) (self.posX + (mouseX - self.dragX))) 0

/-- The candidate y coordinate computed in lines 749-763 (same clamp with
the viewport height and scaled height). -/
def drag_candidate_y (self : DMorph) (mouseY vh : ℚ) : ℚ :=
  max (min (vh - self.heightS) (self.posY + (mouseY - self.dragY))) 0

/-- The per-entry test of the collision loop: a differently-named,
non-hidden entry of `world.children` whose box overlaps the candidate. -/
def collides_with (self : DMorph) (pX pY : ℚ) (big : DChild) : Bool :=
  (big.name != self.name) && (!big.is_hidden) &&
    collisionDetect pX pY big.posScaledX big.posScaledY
      self.widthS self.heightS big.widthS big.heightS

/-- The spec's drag scenario: morph "A", 20×20 at (0,0), drag anchor (0,0),
effective scale 1. -/
def dragSelf : DMorph :=
  { name := "A", posX := 0, posY := 0, posCacheX := 0, posCacheY := 0,
    absScale := 1, widthS := 20, heightS := 20, drag_drop := true,
    dragX := 0, dragY := 0 }

/-- `world.children` for the spec's drag scenario: A's own entry and the
sibling "B", 20×20 at (25,0). -/
def dragChildren : List DChild :=
  [ { name := "A", is_hidden := false, posScaledX := 0, posScaledY := 0,
      widthS := 20, heightS := 20 },
    { name := "B", is_hidden := false, posScaledX := 25, posScaledY := 0,
      widthS := 20, heightS := 20 } ]

/-- Dragged morph for the name-identity counterexample: it carries the
default name `"noname"`. -/
def cexDragSelf : DMorph :=
  { name := "noname", posX := 0, posY := 0, posCacheX := 0, posCacheY := 0,
    absScale := 1, widthS := 20, heightS := 20, drag_drop := true,
    dragX := 0, dragY := 0 }

/-- The dragged morph's own entry in `world.children`. -/
def cexDragSelfEntry : DChild :=
  { name := "noname", is_hidden := false, posScaledX := 0, posScaledY := 0,
    widthS := 20, heightS := 20 }

/-- A sibling distinct from the dragged morph (it sits at (25,0), the
dragged morph at (0,0)) that also carries the default name `"noname"`. -/
def cexOther : DChild :=
  { name := "noname", is_hidden := false, posScaledX := 25, posScaledY := 0,
    widthS := 20, heightS := 20 }

def cexChildren : List DChild := [cexDragSelfEntry, cexOther]

/-! ## Width setter (`Morph.width` setter, lines 241-250) -/

structure WidthMorph where
  scale : ℚ
  ancestorScale : ℚ
  real_width : ℚ
  widthS : ℚ
deriving DecidableEq

/-- Source method `Morph.get_absolute_scale()` (lines 629-636):
`self.scale * self.parent.get_absolute_scale()`, or `self.scale` when there
is no parent.  `ancestorScale` stands for the parent chain's combined
scale (`1` for a parentless morph). -/
def get_absolute_scale (m : WidthMorph) : ℚ := m.scale * m.ancestorScale

/-- Source setter `Morph.width = value` (lines 241-250): raises
`ValueError` for a negative value **before any assignment** (the returned
state is the unmodified morph, paired with the raised message); otherwise
stores `real_width` and recomputes the scaled cache `_width`. -/
def width_set (m : WidthMorph) (value : ℚ) : WidthMorph × Option String :=
  if value < 0 then
    (m, some "new value for width must be a positive number")
  else
    ({ m with real_width := value, widthS := value * get_absolute_scale m }, none)

/-- A sample morph for the width-setter witness. -/
def widthDemo : WidthMorph :=
  { scale := 2, ancestorScale := 3, real_width := 100, widthS := 600 }

/-! ## Mouse-out callback (`Morph.on_mouse_out`, lines 827-834)

An action object bound to a morph's hover callbacks.  Its two fields give
the observable results of invoking the object's `on_mouse_in` and
`on_mouse_out` methods — two distinct fields modelling the two distinct
methods of the bound object. -/

structure HoverAction where
  on_mouse_in : ℤ
  on_mouse_out : ℤ
deriving DecidableEq

/-- Source method `Morph.on_mouse_in()` (lines 818-825): with a bound
in-action, invoke the action's `on_mouse_in` method; else return
`world.event` (an opaque value here). -/
def morph_on_mouse_in (action : Option HoverAction) (world_event : ℤ) : ℤ :=
  match action with
  | some a => a.on_mouse_in
  | none => world_event

/-- Source method `Morph.on_mouse_out()` (lines 827-834): with a bound
out-action, the source invokes `self.on_mouse_out_action.on_mouse_in(self)`
— the action object's mouse-**in** method (line 832); else it returns
`world.event`. -/
def morph_on_mouse_out (action : Option HoverAction) (world_event : ℤ) : ℤ :=
  match action with
  | some a => a.on_mouse_in
  | none => world_event

/-- An out-action whose two methods are observably different. -/
def hoverCexAction : HoverAction := { on_mouse_in := 5, on_mouse_out := 9 }

/-! ## Bounding-box expansion on attach (`Morph.add_morph`, lines 638-654,
and `World.add_morph`, lines 978-994)

`self.bounds` is the list `[min_x, min_y, max_x, max_y]`, modelled as four
fields.  Both `add_morph` overloads run the identical four conditional
assignments after re-parenting the child and appending it to
`self.children`; the re-parenting (parent/world references) is not part of
the bounding-box claim and is not modelled. -/

structure BoundsMorph where
  bounds0 : ℚ
  bounds1 : ℚ
  bounds2 : ℚ
  bounds3 : ℚ
deriving DecidableEq

/-- The bounds update of `add_morph` (lines 647-654 = lines 987-994): drop
each min coordinate to the child's if the child's is smaller, raise each
max coordinate to the child's if the child's is larger. -/
def add_morph_bounds (self mor : BoundsMorph) : BoundsMorph :=
  { bounds0 := if self.bounds0 > mor.bounds0 then mor.bounds0 else self.bounds0
    bounds1 := if self.bounds1 > mor.bounds1 then mor.bounds1 else self.bounds1
    bounds2 := if self.bounds2 < mor.bounds2 then mor.bounds2 else self.bounds2
    bounds3 := if self.bounds3 < mor.bounds3 then mor.bounds3 else self.bounds3 }

/-! ## The root widget (`class World`, lines 857-1029)

State slice of a `World`: the fields set by `World.__init__` together with
the inherited `children` list (children recorded by identifier; dispatching
an event to a child is modelled by emitting a `(child id, event)` call). -/

/-- The slice of a Blender event that `World.on_event` reads:
`event.mouse_region_x` / `event.mouse_region_y`. -/
structure WEvent where
  mouse_region_x : ℚ
  mouse_region_y : ℚ
deriving DecidableEq

/-- The slice of `context.region` that `World.on_event` reads
(`region.x`, `region.y`, `region.width`, `region.height`). -/
structure Region where
  x : ℚ
  y : ℚ
  width : ℚ
  height : ℚ
deriving DecidableEq

/-- The mutable state of a `World`: the fields assigned in `World.__init__`
(lines 857-916), plus `children`. -/
structure WorldState where
  consumed_event : Bool
  modal_operator : ℕ
  mouse_position : ℚ × ℚ
  mouse_position_absolute : ℚ × ℚ
  mouse_cursor_inside : Bool
  window_position : ℚ × ℚ
  window_width : ℚ
  window_height : ℚ
  event : Option WEvent
  draw_area_position : ℚ × ℚ
  draw_area_width : ℚ
  draw_area_height : ℚ
  auto_hide : Bool
  widthS : ℚ
  heightS : ℚ
  children : List ℕ
deriving DecidableEq

/-- Source constructor `World.__init__(singular=True, auto_hide=True)`
(lines 857-916).  The two boolean parameters are accepted but never read in
the body: line 913 assigns `self.auto_hide = True` unconditionally, and
`singular` is never mentioned after the signature.  `_width`/`_height` are
overridden to 2000 (lines 915-916). -/
def worldInit (singular auto_hide : Bool) : WorldState :=
  { consumed_event := false
    modal_operator := 0
    mouse_position := (0, 0)
    mouse_position_absolute := (0, 0)
    mouse_cursor_inside := false
    window_position := (0, 0)
    window_width := 300
    window_height := 300
    event := none
    draw_area_position := (0, 0)
    draw_area_width := 300
    draw_area_height := 300
    auto_hide := true
    widthS := 2000
    heightS := 2000
    children := [] }

/-- Source method `World.on_event(event, context)` (lines 996-1029).
Returns the updated state together with the list of `(child, event)`
dispatch calls made.  When `context.region is None` the method returns at
once (lines 1005-1006), before any assignment; otherwise it stores the
window geometry, the absolute mouse position and the event, resets
`consumed_event` to `False`, and dispatches to every child in order. -/
def world_on_event (w : WorldState) (ev : WEvent) (region : Option Region) :
    WorldState × List (ℕ × WEvent) :=
  match region with
  | none => (w, [])
  | some r =>
    let wp : ℚ × ℚ := (r.x, r.y)
    let w1 : WorldState :=
      { w with
        window_position := wp
        window_width := r.width
        window_height := r.height
        mouse_position_absolute :=
          (ev.mouse_region_x + wp.1, ev.mouse_region_y + wp.2)
        event := some ev
        consumed_event := false }
    (w1, w1.children.map fun c => (c, ev))

end Morpheas

namespace Morpheas

/-! ## Theorems -/

/-- Claim C1: `find_by_name` / `get_child_morph_named` is claimed to search
the whole subtree exhaustively depth-first, finding matches nested more than
one level deep.  The code does not: on a non-matching child it makes the
recursive call but discards its result, so a widget two levels down is never
returned.  On `lookupTree`, the name `"deep"` is present in the subtree
(exhaustive search finds it) yet `get_child_morph_named` returns `None`. -/
theorem get_child_morph_named_misses_deep :
    containsNamed "deep" lookupTree = true ∧
    get_child_morph_named "deep" lookupTree = none := by
  constructor <;> rfl

mutual

/-- Once the root's consumed flag is set, a dispatch into any subtree does
nothing: no widget consumes and no click handler runs. -/
theorem morph_on_event_consumed (e : EventKind) :
    (t : EvTree) → morph_on_event e t true = (true, [])
| .mk d cs => by
  have hcs := morph_on_event_list_consumed e cs
  simp only [morph_on_event, hcs]
  simp

/-- List version of `morph_on_event_consumed`. -/
theorem morph_on_event_list_consumed (e : EventKind) :
    (cs : List EvTree) → morph_on_event_list e cs true = (true, [])
| [] => rfl
| t :: ts => by
  have h1 := morph_on_event_consumed e t
  have h2 := morph_on_event_list_consumed e ts
  simp [morph_on_event_list, h1, h2]

end

mutual

/-- Dispatching a button event into a subtree with the consumed flag still
clear: the flag comes back set iff the post-order traversal holds an
eligible consumer, and the widgets whose click handlers ran are exactly the
first eligible consumer in post-order (if any). -/
theorem morph_on_event_clear (e : EventKind) (he : e.isButton = true) :
    (t : EvTree) → morph_on_event e t false =
      (!((postorder t).filter clickConsumer).isEmpty,
       ((postorder t).filter clickConsumer).take 1)
| .mk d cs => by
  have hcs := morph_on_event_list_clear e he cs
  simp only [morph_on_event, hcs, he, postorder, List.filter_append]
  cases hf : (postorderL cs).filter clickConsumer with
  | nil =>
    cases hhe : d.handles_events <;> cases hhi : d.is_hidden <;>
      cases hmo : d.mouse_over <;> cases hmd : d.handles_mouse_down <;>
      simp [clickConsumer, on_mouse_click_step, hhe, hhi, hmo, hmd]
  | cons x xs => simp

/-- List version of `morph_on_event_clear`. -/
theorem morph_on_event_list_clear (e : EventKind) (he : e.isButton = true) :
    (cs : List EvTree) → morph_on_event_list e cs false =
      (!((postorderL cs).filter clickConsumer).isEmpty,
       ((postorderL cs).filter clickConsumer).take 1)
| [] => rfl
| t :: ts => by
  have h1 := morph_on_event_clear e he t
  simp only [morph_on_event_list, h1, postorderL, List.filter_append]
  cases hf : (postorder t).filter clickConsumer with
  | nil =>
    have h2 := morph_on_event_list_clear e he ts
    simp [h2]
  | cons x xs =>
    have h2 := morph_on_event_list_consumed e ts
    simp [h2]

end

/-- Claim C2: during one button-event dispatch from the root (consumed flag
reset to clear, then children visited in order, descendants before their
ancestors), the widgets whose click handlers run are exactly the first
eligible consumer of the post-order traversal — so once any widget has
consumed the event, no other widget's click handlers run, and at most one
widget net-handles the event per dispatch (first-consumer-wins,
deepest-first). -/
theorem world_dispatch_single_consumer (e : EventKind) (he : e.isButton = true)
    (cs : List EvTree) :
    (world_dispatch e cs).2 = ((postorderL cs).filter clickConsumer).take 1 ∧
    (world_dispatch e cs).2.length ≤ 1 := by
  have h := morph_on_event_list_clear e he cs
  unfold world_dispatch
  rw [h]
  exact ⟨rfl, List.length_take_le 1 ((postorderL cs).filter clickConsumer)⟩

/-- Witness for the C2 theorem on `dispatchDemo` (a parent and its child,
both eligible): the dispatch runs exactly one click handler, namely the
deeper widget's (id 2). -/
theorem world_dispatch_single_consumer_witness :
    EventKind.isButton EventKind.leftmouse = true ∧
    ((world_dispatch EventKind.leftmouse dispatchDemo).2 =
        ((postorderL dispatchDemo).filter clickConsumer).take 1 ∧
      (world_dispatch EventKind.leftmouse dispatchDemo).2.length ≤ 1) ∧
    (world_dispatch EventKind.leftmouse dispatchDemo).2 =
      [⟨2, true, false, true, true⟩] :=
  ⟨rfl, world_dispatch_single_consumer EventKind.leftmouse rfl dispatchDemo, rfl⟩

/-- Claim C3, counterexample: the rectangle hit-test is claimed to test the
box of the widget's *scaled* size, but lines 364-365 use the unscaled
`self.width`/`self.height`.  On a widget of unscaled size 50×30 whose
scaled size is 100×60 (effective scale 2), the pointer at (70,10) lies
strictly inside the scaled box yet `mouse_over_morph` answers `False`. -/
theorem mouse_over_morph_ignores_scale :
    mouse_over_morph scaledRect 70 10 = some false ∧
    pointer_over_scaled_box scaledRect 70 10 = true := by
  constructor
  · norm_num [mouse_over_morph, scaledRect, width_get, height_get]
  · norm_num [pointer_over_scaled_box, scaledRect]

/-- Claim C3, amended: for a Rectangle-shaped widget (with the getters'
well-formedness conditions `real_width ≥ 0` and `_height ≥ 0`, under which
no `ValueError` is raised), `mouse_over_morph` is true iff the pointer's
absolute position lies strictly inside the box from the widget's absolute
position to the absolute position plus its **unscaled** width and height
(strict inequalities on all four edges). -/
theorem mouse_over_morph_unscaled_box (m : RectMorph) (ex ey : ℚ)
    (hw : 0 ≤ m.real_width) (hh : 0 ≤ m.heightS) :
    mouse_over_morph m ex ey = some true ↔
      (m.absX < ex ∧ ex < m.absX + m.real_width ∧
       m.absY < ey ∧ ey < m.absY + m.real_height) := by
  simp [mouse_over_morph, width_get, height_get, hw.not_lt, hh.not_lt,
    and_assoc]

/-- Witness for the amended C3 theorem at the spec's example: widget at
absolute (10,10), size 50×30 at effective scale 1, pointer at (20,20). -/
theorem mouse_over_morph_unscaled_box_witness :
    (0 : ℚ) ≤ unitRect.real_width ∧ (0 : ℚ) ≤ unitRect.heightS ∧
    mouse_over_morph unitRect 20 20 = some true :=
  ⟨by norm_num [unitRect], by norm_num [unitRect],
    (mouse_over_morph_unscaled_box unitRect 20 20 (by norm_num [unitRect])
      (by norm_num [unitRect])).mpr (by norm_num [unitRect])⟩

/-- If a whole subtree uniformly carries flag `v`, its root's flag is `v`. -/
theorem hidden_eq_of_subtreeAll {v : Bool} :
    ∀ {t : HTree}, subtreeAll v t = true → t.hidden = v
| .mk h cs, hyp => by
  have h2 : ((h == v) && subtreeAllL v cs) = true := hyp
  rw [Bool.and_eq_true] at h2
  exact eq_of_beq h2.1

mutual

/-- Assigning `is_hidden = b` on a subtree that uniformly carries some flag
`v` makes the whole subtree uniformly carry `b`. -/
theorem set_is_hidden_uniform (b v : Bool) :
    (t : HTree) → subtreeAll v t = true → subtreeAll b (set_is_hidden b t) = true
| .mk h cs, hyp => by
  have hyp2 : ((h == v) && subtreeAllL v cs) = true := hyp
  rw [Bool.and_eq_true] at hyp2
  have hrec := set_is_hidden_children_uniform b v cs hyp2.2
  have goal2 : ((b == b) && subtreeAllL b (set_is_hidden_children b cs)) = true := by
    simp [hrec]
  exact goal2

/-- List version of `set_is_hidden_uniform`. -/
theorem set_is_hidden_children_uniform (b v : Bool) :
    (cs : List HTree) → subtreeAllL v cs = true →
      subtreeAllL b (set_is_hidden_children b cs) = true
| [], _ => rfl
| c :: rest, hyp => by
  have hyp2 : (subtreeAll v c && subtreeAllL v rest) = true := hyp
  rw [Bool.and_eq_true] at hyp2
  have hrest := set_is_hidden_children_uniform b v rest hyp2.2
  have goal2 : (subtreeAll b (if c.hidden ≠ b then set_is_hidden b c else c) &&
      subtreeAllL b (set_is_hidden_children b rest)) = true := by
    by_cases hcb : c.hidden ≠ b
    · have hc := set_is_hidden_uniform b v c hyp2.1
      simp [hcb, hc, hrest]
    · push_neg at hcb
      have hv : c.hidden = v := hidden_eq_of_subtreeAll hyp2.1
      have hc : subtreeAll b c = true := by rw [← hcb, hv]; exact hyp2.1
      simp [hcb, hc, hrest]
  exact goal2

end

/-- When every tree in the list is internally consistent, the setter's loop
turns the whole list uniformly to flag `b`. -/
theorem set_is_hidden_children_consistent (b : Bool) :
    (cs : List HTree) → consistentChildren cs = true →
      subtreeAllL b (set_is_hidden_children b cs) = true
| [], _ => rfl
| c :: rest, hyp => by
  have hyp2 : (consistent c && consistentChildren rest) = true := hyp
  rw [Bool.and_eq_true] at hyp2
  have hrest := set_is_hidden_children_consistent b rest hyp2.2
  have hc1 : subtreeAll c.hidden c = true := hyp2.1
  have goal2 : (subtreeAll b (if c.hidden ≠ b then set_is_hidden b c else c) &&
      subtreeAllL b (set_is_hidden_children b rest)) = true := by
    by_cases hcb : c.hidden ≠ b
    · have hc := set_is_hidden_uniform b c.hidden c hc1
      simp [hcb, hc, hrest]
    · push_neg at hcb
      have hc : subtreeAll b c = true := by rw [← hcb]; exact hc1
      simp [hcb, hc, hrest]
  exact goal2

/-- Claim C4, counterexample: assigning `is_hidden = b` is claimed to leave
every descendant with flag `b` *regardless of the flags held before*.  The
setter's loop skips any child whose own flag already equals `b`
(line 581), so a differing grandchild below such a child is never visited:
on `hiddenCex` (visible root, hidden child, visible grandchild), after
`is_hidden = True` the grandchild is still visible. -/
theorem set_is_hidden_skips_inconsistent_grandchild :
    set_is_hidden true hiddenCex = .mk true [.mk true [.mk false []]] ∧
    subtreeAll true (set_is_hidden true hiddenCex) = false := by
  constructor <;> rfl

/-- Claim C4, amended: provided each child subtree of `w` was internally
consistent before the assignment (the spec's invariant (c), which the
setter itself maintains), immediately after assigning `is_hidden = b` on
`w` every widget of `w`'s subtree — `w` and every descendant at every
depth — has `is_hidden = b`. -/
theorem set_is_hidden_cascades (b : Bool) (t : HTree)
    (h : consistentChildren t.children = true) :
    subtreeAll b (set_is_hidden b t) = true := by
  cases t with
  | mk hd cs =>
    have hcs := set_is_hidden_children_consistent b cs h
    have goal2 : ((b == b) && subtreeAllL b (set_is_hidden_children b cs)) = true := by
      simp [hcs]
    exact goal2

/-- Witness for the amended C4 theorem on a concrete consistent tree. -/
theorem set_is_hidden_cascades_witness :
    consistentChildren hiddenDemo.children = true ∧
    subtreeAll true (set_is_hidden true hiddenDemo) = true :=
  ⟨rfl, set_is_hidden_cascades true hiddenDemo rfl⟩

/-- When the scaled-size getters cannot raise (no negative scaled cache on
the dragged morph, nor on any entry of the list), the collision loop
computes exactly "some entry with a different name, not hidden, overlaps
the candidate box". -/
theorem cancel_drag_loop_eq (self : DMorph) (pX pY : ℚ)
    (hsw : 0 ≤ self.widthS) (hsh : 0 ≤ self.heightS) :
    (cs : List DChild) → (∀ b ∈ cs, 0 ≤ b.widthS ∧ 0 ≤ b.heightS) →
      cancel_drag_loop self pX pY cs = some (cs.any (collides_with self pX pY))
| [], _ => rfl
| big :: rest, hc => by
  have hrest := cancel_drag_loop_eq self pX pY hsw hsh rest
    (fun b hb => hc b (List.mem_cons_of_mem _ hb))
  have hbw : 0 ≤ big.widthS := (hc big (List.mem_cons_self _ _)).1
  have hbh : 0 ≤ big.heightS := (hc big (List.mem_cons_self _ _)).2
  by_cases hq : big.name ≠ self.name ∧ big.is_hidden = false
  · have hbne : (big.name != self.name) = true := by
      simp [bne_iff_ne, hq.1]
    simp only [cancel_drag_loop, if_pos hq, scaled_get, if_neg hsw.not_lt,
      if_neg hsh.not_lt, if_neg hbw.not_lt, if_neg hbh.not_lt, Option.some_bind,
      hrest, List.any_cons]
    simp [collides_with, hq.2, hbne]
  · simp only [cancel_drag_loop, if_neg hq, hrest, List.any_cons]
    have hcw : collides_with self pX pY big = false := by
      unfold collides_with
      by_cases h1 : big.name = self.name
      · simp [h1]
      · have h2 : big.is_hidden = true := by
          rcases not_and_or.mp hq with h | h
          · exact absurd (not_not.mp h) h1
          · simpa using h
        simp [h2]
    simp [hcw]

/-- Claim C5, amended: for a widget whose drag state is active (and whose
scaled-size getters cannot raise), a pointer-move event computes the
candidate position from the pointer delta since the drag anchor, clamped to
the viewport bounds; if the candidate rectangle collides with any entry of
the root's children **whose name differs from the widget's name** and that
is not hidden, position and drag anchor are left unchanged (drag stays
active); otherwise the position becomes the candidate and the anchor is
updated to the current pointer position.  (The source tests
`bigMorph.name != self.name`, lines 765-766, so siblings are told apart
from the dragged widget by name, not by identity — see the
counterexample.) -/
theorem on_mouse_over_drag_spec (self : DMorph) (cs : List DChild)
    (mouseX mouseY vw vh : ℚ)
    (hdrag : self.drag_drop = true)
    (hsw : 0 ≤ self.widthS) (hsh : 0 ≤ self.heightS)
    (hc : ∀ b ∈ cs, 0 ≤ b.widthS ∧ 0 ≤ b.heightS) :
    (cs.any (collides_with self (drag_candidate_x self mouseX vw)
        (drag_candidate_y self mouseY vh)) = true →
      on_mouse_over_drag self cs mouseX mouseY vw vh = some self) ∧
    (cs.any (collides_with self (drag_candidate_x self mouseX vw)
        (drag_candidate_y self mouseY vh)) = false →
      on_mouse_over_drag self cs mouseX mouseY vw vh =
        some { self with
          posX := drag_candidate_x self mouseX vw
          posY := drag_candidate_y self mouseY vh
          posCacheX := drag_candidate_x self mouseX vw * self.absScale
          posCacheY := drag_candidate_y self mouseY vh * self.absScale
          dragX := mouseX
          dragY := mouseY }) := by
  have hloop := cancel_drag_loop_eq self (drag_candidate_x self mouseX vw)
    (drag_candidate_y self mouseY vh) hsw hsh cs hc
  rw [drag_candidate_x, drag_candidate_y] at hloop
  constructor <;> intro hany
  all_goals
    rw [drag_candidate_x, drag_candidate_y] at hany
    simp only [on_mouse_over_drag, hdrag, if_true, hloop, hany,
      drag_candidate_x, drag_candidate_y]
  all_goals simp

/-- Witness for the amended C5 theorem at the spec's drag scenario: "A"
(20×20, dragging from (0,0)) moves toward (22,0); the sibling "B"
(20×20 at (25,0)) overlaps the candidate box, so A's state is unchanged. -/
theorem on_mouse_over_drag_spec_witness :
    dragSelf.drag_drop = true ∧
    dragChildren.any (collides_with dragSelf (drag_candidate_x dragSelf 22 100)
      (drag_candidate_y dragSelf 0 100)) = true ∧
    on_mouse_over_drag dragSelf dragChildren 22 0 100 100 = some dragSelf := by
  have hany : dragChildren.any (collides_with dragSelf
      (drag_candidate_x dragSelf 22 100) (drag_candidate_y dragSelf 0 100)) = true := by
    norm_num [dragChildren, dragSelf, collides_with, collisionDetect,
      drag_candidate_x, drag_candidate_y]
    decide
  refine ⟨rfl, hany, ?_⟩
  exact (on_mouse_over_drag_spec dragSelf dragChildren 22 0 100 100 rfl
    (by norm_num [dragSelf]) (by norm_num [dragSelf])
    (by intro b hb
        simp only [dragChildren, List.mem_cons, List.not_mem_nil, or_false] at hb
        rcases hb with rfl | rfl <;> norm_num)).1 hany

/-- Claim C5, counterexample: the claim as stated rejects the move whenever
the candidate collides with any sibling *that is not the widget itself* and
is not hidden.  The code compares names instead: with the dragged morph and
a distinct, colliding, non-hidden sibling both carrying the default name
`"noname"`, the sibling is skipped and the move is committed anyway. -/
theorem on_mouse_over_drag_name_shadowing :
    cexOther.is_hidden = false ∧
    cexOther ≠ cexDragSelfEntry ∧
    collisionDetect (drag_candidate_x cexDragSelf 22 100)
      (drag_candidate_y cexDragSelf 0 100) cexOther.posScaledX cexOther.posScaledY
      cexDragSelf.widthS cexDragSelf.heightS cexOther.widthS cexOther.heightS = true ∧
    on_mouse_over_drag cexDragSelf cexChildren 22 0 100 100 =
      some { cexDragSelf with
        posX := 22, posY := 0, posCacheX := 22, posCacheY := 0,
        dragX := 22, dragY := 0 } := by
  refine ⟨rfl, ?_, ?_, ?_⟩
  · norm_num [cexOther, cexDragSelfEntry, DChild.mk.injEq]
  · norm_num [cexOther, cexDragSelf, collisionDetect, drag_candidate_x,
      drag_candidate_y]
  · norm_num [on_mouse_over_drag, cancel_drag_loop, scaled_get, collisionDetect,
      cexDragSelf, cexChildren, cexDragSelfEntry, cexOther, DMorph.mk.injEq]

/-- Claim C6: the width setter rejects negative values with the
`ValueError` (leaving both the unscaled and the scaled width — indeed the
whole state — unchanged, since the raise precedes every assignment), and
accepts any `v ≥ 0`, storing `v` as the width and `v or scale` as the
scaled cache. -/
theorem width_set_spec (m : WidthMorph) (v : ℚ) :
    (v < 0 →
      width_set m v = (m, some "new value for width must be a positive number") ∧
      (width_set m v).1.real_width = m.real_width ∧
      (width_set m v).1.widthS = m.widthS) ∧
    (0 ≤ v →
      (width_set m v).2 = none ∧
      (width_set m v).1.real_width = v ∧
      (width_set m v).1.widthS = v * get_absolute_scale m) := by
  constructor
  · intro hv
    unfold width_set
    rw [if_pos hv]
    exact ⟨rfl, rfl, rfl⟩
  · intro hv
    unfold width_set
    rw [if_neg hv.not_lt]
    exact ⟨rfl, rfl, rfl⟩

/-- Witness for the C6 theorem: `set_width(-5)` raises and leaves the
state unchanged; `set_width(7)` succeeds and stores 7. -/
theorem width_set_spec_witness :
    ((-5 : ℚ) < 0 ∧
      width_set widthDemo (-5) =
        (widthDemo, some "new value for width must be a positive number")) ∧
    ((0 : ℚ) ≤ 7 ∧ (width_set widthDemo 7).1.real_width = 7) :=
  ⟨⟨by norm_num, ((width_set_spec widthDemo (-5)).1 (by norm_num)).1⟩,
    ⟨by norm_num, ((width_set_spec widthDemo 7).2 (by norm_num)).2.1⟩⟩

/-- Claim C7: `on_mouse_out` is claimed to invoke the bound action's
distinct mouse-out method, but line 832 invokes the out-action object's
`on_mouse_in` method.  On an action whose two methods are observably
different, `on_mouse_out` returns the mouse-in method's result, not the
mouse-out method's. -/
theorem on_mouse_out_invokes_mouse_in_method :
    morph_on_mouse_out (some hoverCexAction) 0 = hoverCexAction.on_mouse_in ∧
    morph_on_mouse_out (some hoverCexAction) 0 ≠ hoverCexAction.on_mouse_out := by
  exact ⟨rfl, by decide⟩

/-- Claim C8: after `add_morph(p, c)`, each min coordinate of p's bounding
box is the minimum, and each max coordinate the maximum, of the
corresponding coordinates of p's prior box and c's box; hence the new box
contains both (the box never shrinks under attachment).  The identical
update is run by `Morph.add_morph` (lines 647-654) and `World.add_morph`
(lines 987-994). -/
theorem add_morph_bounds_expands (p c : BoundsMorph) :
    (add_morph_bounds p c).bounds0 = min p.bounds0 c.bounds0 ∧
    (add_morph_bounds p c).bounds1 = min p.bounds1 c.bounds1 ∧
    (add_morph_bounds p c).bounds2 = max p.bounds2 c.bounds2 ∧
    (add_morph_bounds p c).bounds3 = max p.bounds3 c.bounds3 ∧
    (add_morph_bounds p c).bounds0 ≤ p.bounds0 ∧
    (add_morph_bounds p c).bounds1 ≤ p.bounds1 ∧
    p.bounds2 ≤ (add_morph_bounds p c).bounds2 ∧
    p.bounds3 ≤ (add_morph_bounds p c).bounds3 ∧
    (add_morph_bounds p c).bounds0 ≤ c.bounds0 ∧
    (add_morph_bounds p c).bounds1 ≤ c.bounds1 ∧
    c.bounds2 ≤ (add_morph_bounds p c).bounds2 ∧
    c.bounds3 ≤ (add_morph_bounds p c).bounds3 := by
  refine ⟨?_, ?_, ?_, ?_, ?_, ?_, ?_, ?_, ?_, ?_, ?_, ?_⟩ <;>
    · simp only [add_morph_bounds, min_def, max_def]
      split_ifs <;> first | rfl | linarith

/-- Claim C9: `World.__init__` ignores its `auto_hide` parameter — whatever
booleans are passed for `singular` and `auto_hide`, the constructed world
has `auto_hide = True` (line 913 assigns the literal `True`). -/
theorem worldInit_auto_hide_always_true (singular auto_hide : Bool) :
    (worldInit singular auto_hide).auto_hide = true := rfl

/-- Claim C10: when `World.on_event` is called with a frame context whose
region is `None`, it returns immediately — no child is dispatched to, and
the consumed flag, the stored event, both mouse-position fields and the
window geometry all keep their prior values (the whole state is returned
unchanged). -/
theorem world_on_event_region_none_no_effect (w : WorldState) (ev : WEvent) :
    (world_on_event w ev none).1.consumed_event = w.consumed_event ∧
    (world_on_event w ev none).1.event = w.event ∧
    (world_on_event w ev none).1.mouse_position = w.mouse_position ∧
    (world_on_event w ev none).1.mouse_position_absolute = w.mouse_position_absolute ∧
    (world_on_event w ev none).1.window_position = w.window_position ∧
    (world_on_event w ev none).1.window_width = w.window_width ∧
    (world_on_event w ev none).1.window_height = w.window_height ∧
    (world_on_event w ev none).1 = w ∧
    (world_on_event w ev none).2 = [] := by
  refine ⟨rfl, rfl, rfl, rfl, rfl, rfl, rfl, rfl, rfl⟩

end Morpheas
